import Mathlib

/-!
# gst-sync-server: the TCP control server

A shallow embedding of `gst-libs/gst/sync-server/sync-tcp-control-server.c`.

* The object `GstSyncTcpControlServer` is a record; every C function that
  mutates it becomes a function returning the new record together with the
  list of library calls it made, in program order (`Call`).
* What GLib, GIO and json-glib answer is not part of the file: each function
  takes the answers as an argument (`RunEnv`, `ListenEnv`), so every theorem
  quantifies over all of them.
* Pointers are `Option`: `none` is `NULL`.  A `GError *` additionally may be
  `wild` (not `NULL`, not pointing to a `GError`), since `run_cb` declares its
  `err` without an initialiser.
* Dereferencing `NULL` or a wild pointer ends the run with `Outcome.fault`.
* The sync-parameters type `GstSyncServerInfo` and json-glib's `JsonNode` come
  from headers outside the file: they are the type parameters `I` and `N`.
-/

namespace GstSync

/-! ## Values, property ids and the object -/

/-- Property ids, the anonymous `enum` of the file (`PROP_0` is 0). -/
def PROP_0 : Nat := 0
/-- Id of the property "address". -/
def PROP_ADDRESS : Nat := 1
/-- Id of the property "port". -/
def PROP_PORT : Nat := 2
/-- Id of the property "sync-info". -/
def PROP_SYNC_INFO : Nat := 3

/-- The macro `DEFAULT_PORT`. -/
def DEFAULT_PORT : Int := 0

/-- A `GValue` as the property functions see it: a string (possibly `NULL`),
an int, or a boxed `GstSyncServerInfo` (possibly `NULL`). -/
inductive GValue (I : Type) where
  | string (s : Option String)
  | int (n : Int)
  | boxed (b : Option I)
  deriving DecidableEq, Repr

/-- An inet socket address as built by `g_inet_socket_address_new_from_string`. -/
structure GSocketAddress where
  address : String
  port : Nat
  deriving DecidableEq, Repr

/-- The socket service object behind `self->server`: the `max_threads` it was
created with, whether a handler is connected to its "run" signal, and the
addresses it listens on. -/
structure GSocketService where
  max_threads : Int
  run_connected : Bool
  listening : List GSocketAddress
  deriving DecidableEq, Repr

/-- The instance struct `_GstSyncTcpControlServer` (without the parent). -/
structure GstSyncTcpControlServer (I : Type) where
  addr : Option String
  port : Int
  info : Option I
  server : Option GSocketService
  deriving DecidableEq, Repr

/-- A `GError *`: `NULL`, a pointer that is neither `NULL` nor a `GError`
(an indeterminate value), or a pointer to an error with a message. -/
inductive GErrorPtr where
  | null
  | wild
  | error (message : String)
  deriving DecidableEq, Repr

/-- The condition flags passed to `g_socket_condition_wait`; the file only
uses `G_IO_IN`. -/
inductive GIOCondition where
  | G_IO_IN
  | G_IO_OUT
  | G_IO_HUP
  deriving DecidableEq, Repr

/-- A library call made by the code, with the arguments and results that
matter.  `g_socket_receive`, `g_socket_close` and `g_socket_shutdown` belong
to the socket interface but are called nowhere in the file. -/
inductive Call (I : Type) where
  | g_free (s : String)
  | gst_sync_server_info_free (i : I)
  | g_object_warn_invalid_property_id (property_id : Nat)
  | g_socket_service_stop (svc : GSocketService)
  | g_object_unref (svc : GSocketService)
  | parent_dispose
  | parent_constructed
  | g_threaded_socket_service_new (max_threads : Int)
  | g_signal_connect_run
  | g_inet_socket_address_new_from_string (addr : Option String) (port : Nat)
  | g_socket_listener_add_address (sockaddr : Option GSocketAddress) (ok : Bool)
  | g_warning (message : String)
  | g_error_free
  | json_boxed_serialize (info : Option I)
  | json_to_string
  | json_node_unref
  | g_socket_connection_get_socket
  | g_socket_send (buffer : String) (size : Nat) (result : Int)
  | g_socket_receive
  | g_socket_close
  | g_socket_shutdown
  | g_socket_is_connected (result : Bool)
  | g_socket_condition_wait (condition : GIOCondition) (result : Bool)
  deriving DecidableEq, Repr

/-- How a run of a handler stands: it returned a `gboolean`, it dereferenced
an invalid pointer, or it is still in its wait loop when the observation
ends. -/
inductive Outcome where
  | returned (value : Bool)
  | fault
  | waiting
  deriving DecidableEq, Repr

/-! ## GLib helpers used by the file -/

/-- The function `g_free`: nothing happens on `NULL`. -/
def g_free {I : Type} (mem : Option String) : List (Call I) :=
  match mem with
  | none => []
  | some s => [Call.g_free s]

/-- The function `g_value_dup_string`: a copy of the string held, `NULL` when
the value holds no string. -/
def g_value_dup_string {I : Type} (value : GValue I) : Option String :=
  match value with
  | GValue.string s => s
  | _ => none

/-- The function `g_value_get_int`: the int held, 0 when the value holds no
int. -/
def g_value_get_int {I : Type} (value : GValue I) : Int :=
  match value with
  | GValue.int n => n
  | _ => 0

/-- The function `g_value_dup_boxed`: a copy of the boxed value held, `NULL`
when the value holds none. -/
def g_value_dup_boxed {I : Type} (value : GValue I) : Option I :=
  match value with
  | GValue.boxed b => b
  | _ => none

/-- The function `g_set_error` on `&err`: the error is stored only when `err`
is `NULL`; otherwise `err` is left as it is. -/
def g_set_error (err : GErrorPtr) (message : String) : GErrorPtr :=
  match err with
  | GErrorPtr.null => GErrorPtr.error message
  | e => e

/-- The function `strlen` on a C string: its length in bytes. -/
def strlen (s : String) : Nat := s.utf8ByteSize

/-- Conversion of a `gssize` to `gsize` (64 bits), as the comparison
`g_socket_send (...) != len` does with its left operand. -/
def gssize_to_gsize (r : Int) : Nat := (r % (2 : Int) ^ 64).toNat

/-! ## Property functions -/

/-- The function `gst_sync_tcp_control_server_set_property`. -/
def gst_sync_tcp_control_server_set_property {I : Type}
    (self : GstSyncTcpControlServer I) (property_id : Nat) (value : GValue I) :
    GstSyncTcpControlServer I × List (Call I) :=
  if property_id = PROP_ADDRESS then
    ({ self with addr := g_value_dup_string value }, g_free self.addr)
  else if property_id = PROP_PORT then
    ({ self with port := g_value_get_int value }, [])
  else if property_id = PROP_SYNC_INFO then
    ({ self with info := g_value_dup_boxed value },
      match self.info with
      | some i => [Call.gst_sync_server_info_free i]
      | none => [])
  else
    (self, [Call.g_object_warn_invalid_property_id property_id])

/-- The function `gst_sync_tcp_control_server_get_property`: the new content
of `value`, and the calls made. -/
def gst_sync_tcp_control_server_get_property {I : Type}
    (self : GstSyncTcpControlServer I) (property_id : Nat) (value : GValue I) :
    GValue I × List (Call I) :=
  if property_id = PROP_ADDRESS then
    (GValue.string self.addr, [])
  else if property_id = PROP_PORT then
    (GValue.int self.port, [])
  else if property_id = PROP_SYNC_INFO then
    (GValue.boxed self.info, [])
  else
    (value, [Call.g_object_warn_invalid_property_id property_id])

/-- The function `gst_sync_tcp_control_server_init`. -/
def gst_sync_tcp_control_server_init {I : Type}
    (self : GstSyncTcpControlServer I) : GstSyncTcpControlServer I :=
  { self with addr := none, port := 0, info := none }

/-- The function `gst_sync_tcp_control_server_dispose`. -/
def gst_sync_tcp_control_server_dispose {I : Type}
    (self : GstSyncTcpControlServer I) :
    GstSyncTcpControlServer I × List (Call I) :=
  let c1 : List (Call I) :=
    match self.server with
    | some svc => [Call.g_socket_service_stop svc, Call.g_object_unref svc]
    | none => []
  let c2 : List (Call I) := g_free self.addr
  let c3 : List (Call I) :=
    match self.info with
    | some i => [Call.gst_sync_server_info_free i]
    | none => []
  ({ addr := none, port := self.port, info := none, server := none },
    c1 ++ c2 ++ c3 ++ [Call.parent_dispose])

/-! ## The connection handler -/

/-- What the libraries answer to one run of `run_cb`: the two json-glib
functions, the indeterminate initial value of the local `err`, the return
value of `g_socket_send` and the message of the error it sets when it fails,
and the results of the successive calls of `g_socket_is_connected` and
`g_socket_condition_wait` (call number `k`, from 0). -/
structure RunEnv (I N : Type) where
  json_boxed_serialize : Option I → Option N
  json_to_string : Option N → Option String
  err_init : GErrorPtr
  send_result : Int
  send_error : String
  is_connected : Nat → Bool
  condition_wait : Nat → Bool

/-- The result of a run: the calls made, in order, and how the run stands. -/
structure Run (I : Type) where
  calls : List (Call I)
  outcome : Outcome
  deriving DecidableEq, Repr

/-- The loop `while (g_socket_is_connected (socket)) g_socket_condition_wait
(socket, G_IO_IN, NULL, NULL);` followed by `return TRUE`, observed for at
most `fuel` evaluations of the loop condition, starting at iteration `k`.
The result of the wait is discarded, as in the source. -/
def wait_loop {I N : Type} (env : RunEnv I N) : Nat → Nat → Run I
  | 0, _ => { calls := [], outcome := Outcome.waiting }
  | fuel + 1, k =>
    if env.is_connected k then
      let rest := wait_loop env fuel (k + 1)
      { calls := Call.g_socket_is_connected true ::
          Call.g_socket_condition_wait GIOCondition.G_IO_IN (env.condition_wait k) ::
          rest.calls,
        outcome := rest.outcome }
    else
      { calls := [Call.g_socket_is_connected false], outcome := Outcome.returned true }

/-- The function `run_cb`.  `strlen` of `NULL` and `err->message` on a pointer
that is not a `GError` end the run with a fault.  By the `GError` convention
`g_socket_send` touches `err` only when it fails (returns a negative value),
and then through `g_set_error`. -/
def run_cb {I N : Type} (env : RunEnv I N) (self : GstSyncTcpControlServer I)
    (fuel : Nat) : Run I :=
  let node := env.json_boxed_serialize self.info
  match env.json_to_string node with
  | none =>
    { calls := [Call.json_boxed_serialize self.info, Call.json_to_string],
      outcome := Outcome.fault }
  | some out =>
    let len := strlen out
    let r := env.send_result
    let err := if r < 0 then g_set_error env.err_init env.send_error else env.err_init
    let pre : List (Call I) :=
      [Call.json_boxed_serialize self.info, Call.json_to_string, Call.json_node_unref,
        Call.g_socket_connection_get_socket, Call.g_socket_send out len r]
    if gssize_to_gsize r ≠ len then
      match err with
      | GErrorPtr.error message =>
        let w := wait_loop env fuel 0
        { calls := pre ++
            [Call.g_warning
              ("Could not write out " ++ toString len ++ " bytes: " ++ message),
              Call.g_error_free] ++ w.calls,
          outcome := w.outcome }
      | _ => { calls := pre, outcome := Outcome.fault }
    else
      let w := wait_loop env fuel 0
      { calls := pre ++ w.calls, outcome := w.outcome }

/-- Calls that act on the connection's socket. -/
def Call.on_socket {I : Type} : Call I → Bool
  | Call.g_socket_send _ _ _ => true
  | Call.g_socket_receive => true
  | Call.g_socket_close => true
  | Call.g_socket_shutdown => true
  | Call.g_socket_is_connected _ => true
  | Call.g_socket_condition_wait _ _ => true
  | _ => false

/-- Connectivity checks and waits for readability. -/
def Call.is_check_or_wait {I : Type} : Call I → Bool
  | Call.g_socket_is_connected _ => true
  | Call.g_socket_condition_wait GIOCondition.G_IO_IN _ => true
  | _ => false

/-- Sends. -/
def Call.is_send {I : Type} : Call I → Bool
  | Call.g_socket_send _ _ _ => true
  | _ => false

/-- Warnings. -/
def Call.is_warning {I : Type} : Call I → Bool
  | Call.g_warning _ => true
  | _ => false

/-- Calls that stop a service or release an object or memory. -/
def Call.is_stop_or_release {I : Type} : Call I → Bool
  | Call.g_socket_service_stop _ => true
  | Call.g_object_unref _ => true
  | Call.g_free _ => true
  | Call.gst_sync_server_info_free _ => true
  | _ => false

/-- The calls of a run that act on the socket, in order. -/
def socket_calls {I : Type} (calls : List (Call I)) : List (Call I) :=
  calls.filter Call.on_socket

/-! ## Construction -/

/-- Conversion of a `gint` to `guint` (32 bits), as passing `self->port` to
the `guint port` parameter of `g_inet_socket_address_new_from_string` does. -/
def gint_to_guint (n : Int) : Nat := (n % (2 : Int) ^ 32).toNat

/-- What GIO answers during `constructed`: the socket address parsed from a
string and a port (`NULL` when the string cannot be parsed), and the result
of adding an address to the listener: `none` for `TRUE`, `some m` for `FALSE`
with `err` set to an error with message `m`. -/
structure ListenEnv where
  g_inet_socket_address_new_from_string : String → Nat → Option GSocketAddress
  g_socket_listener_add_address : Option GSocketAddress → Option String

/-- The result of a construction: the object, the calls made, and whether the
run ended by reading through an invalid pointer instead of returning. -/
structure Constructed (I : Type) where
  self : GstSyncTcpControlServer I
  calls : List (Call I)
  fault : Bool
  deriving DecidableEq, Repr

/-- The function `gst_sync_tcp_control_server_constructed`.  It returns
`void`.  `g_inet_socket_address_new_from_string` reads its string argument
without a `NULL` check, so with `self->addr == NULL` the run ends inside that
call with a fault, after the service was created and before any address is
added. -/
def gst_sync_tcp_control_server_constructed {I : Type} (env : ListenEnv)
    (self : GstSyncTcpControlServer I) : Constructed I :=
  let svc : GSocketService := { max_threads := -1, run_connected := true, listening := [] }
  let pre : List (Call I) :=
    [Call.parent_constructed, Call.g_threaded_socket_service_new (-1),
      Call.g_signal_connect_run,
      Call.g_inet_socket_address_new_from_string self.addr (gint_to_guint self.port)]
  match self.addr with
  | none => { self := { self with server := some svc }, calls := pre, fault := true }
  | some address =>
    let sockaddr :=
      env.g_inet_socket_address_new_from_string address (gint_to_guint self.port)
    match env.g_socket_listener_add_address sockaddr with
    | some message =>
      { self := { self with server := some svc },
        calls := pre ++ [Call.g_socket_listener_add_address sockaddr false,
          Call.g_warning ("Could not set up socket listener: " ++ message),
          Call.g_error_free],
        fault := false }
    | none =>
      { self := { self with server := some { svc with listening := sockaddr.toList } },
        calls := pre ++ [Call.g_socket_listener_add_address sockaddr true],
        fault := false }

/-! ## Property installation and GObject's property dispatch -/

/-- Flags of a property, `GParamFlags`. -/
inductive GParamFlag where
  | G_PARAM_READABLE
  | G_PARAM_WRITABLE
  | G_PARAM_CONSTRUCT
  | G_PARAM_CONSTRUCT_ONLY
  | G_PARAM_STATIC_STRINGS
  deriving DecidableEq, Repr

/-- The macro `G_PARAM_READWRITE`. -/
def G_PARAM_READWRITE : List GParamFlag :=
  [GParamFlag.G_PARAM_READABLE, GParamFlag.G_PARAM_WRITABLE]

/-- The value type of a property: string, int within a range, or boxed. -/
inductive GParamKind where
  | string
  | int (minimum maximum default_value : Int)
  | boxed
  deriving DecidableEq, Repr

/-- A property specification. -/
structure GParamSpec where
  name : String
  kind : GParamKind
  flags : List GParamFlag
  deriving DecidableEq, Repr

/-- The property "address" as `class_init` specifies it. -/
def address_pspec : GParamSpec :=
  { name := "address", kind := GParamKind.string,
    flags := G_PARAM_READWRITE ++
      [GParamFlag.G_PARAM_CONSTRUCT_ONLY, GParamFlag.G_PARAM_STATIC_STRINGS] }

/-- The property "port" as `class_init` specifies it. -/
def port_pspec : GParamSpec :=
  { name := "port", kind := GParamKind.int 0 65535 DEFAULT_PORT,
    flags := G_PARAM_READWRITE ++
      [GParamFlag.G_PARAM_CONSTRUCT_ONLY, GParamFlag.G_PARAM_STATIC_STRINGS] }

/-- The property "sync-info" as `class_init` specifies it. -/
def sync_info_pspec : GParamSpec :=
  { name := "sync-info", kind := GParamKind.boxed,
    flags := G_PARAM_READWRITE ++
      [GParamFlag.G_PARAM_CONSTRUCT, GParamFlag.G_PARAM_STATIC_STRINGS] }

/-- The properties installed by `gst_sync_tcp_control_server_class_init`,
each with its id. -/
def gst_sync_tcp_control_server_class_init : List (Nat × GParamSpec) :=
  [(PROP_ADDRESS, address_pspec), (PROP_PORT, port_pspec), (PROP_SYNC_INFO, sync_info_pspec)]

/-- Whether a value conforms to a property's type and range. -/
def GParamKind.accepts {I : Type} : GParamKind → GValue I → Bool
  | GParamKind.string, GValue.string _ => true
  | GParamKind.int lo hi _, GValue.int n => decide (lo ≤ n ∧ n ≤ hi)
  | GParamKind.boxed, GValue.boxed _ => true
  | _, _ => false

/-- GObject's `g_object_set_property` for this class, by property id, as the
GObject documentation describes it: an unknown property, a property that is
not writable, a construct-only property once the object is constructed
(`in_construction` false), and a value that does not conform are each
refused with a warning; otherwise the class's `set_property` runs. -/
def g_object_set_property {I : Type} (in_construction : Bool)
    (self : GstSyncTcpControlServer I) (property_id : Nat) (value : GValue I) :
    GstSyncTcpControlServer I × List (Call I) :=
  match gst_sync_tcp_control_server_class_init.lookup property_id with
  | none => (self, [Call.g_warning "no property with this id"])
  | some pspec =>
    if ¬ (GParamFlag.G_PARAM_WRITABLE ∈ pspec.flags) then
      (self, [Call.g_warning ("property " ++ pspec.name ++ " is not writable")])
    else if GParamFlag.G_PARAM_CONSTRUCT_ONLY ∈ pspec.flags ∧ in_construction = false then
      (self, [Call.g_warning
        ("construct property " ++ pspec.name ++ " cannot be set after construction")])
    else if pspec.kind.accepts value = false then
      (self, [Call.g_warning
        ("value is invalid or out of range for property " ++ pspec.name)])
    else
      gst_sync_tcp_control_server_set_property self property_id value

/-- GObject's `g_object_get_property` for this class, by property id: an
unknown or unreadable property is refused with a warning; otherwise the
class's `get_property` runs. -/
def g_object_get_property {I : Type}
    (self : GstSyncTcpControlServer I) (property_id : Nat) (value : GValue I) :
    GValue I × List (Call I) :=
  match gst_sync_tcp_control_server_class_init.lookup property_id with
  | none => (value, [Call.g_warning "no property with this id"])
  | some pspec =>
    if ¬ (GParamFlag.G_PARAM_READABLE ∈ pspec.flags) then
      (value, [Call.g_warning ("property " ++ pspec.name ++ " is not readable")])
    else
      gst_sync_tcp_control_server_get_property self property_id value

/-- GObject's construction of an instance of this class, as the GObject
documentation describes it: the zero-filled instance goes through `init`,
the construct properties are set (the sync parameters are `NULL` when the
owner passes none), then `constructed` runs. -/
def g_object_new {I : Type} (env : ListenEnv) (address : Option String) (port : Int)
    (sync_info : Option I) : Constructed I :=
  let s0 : GstSyncTcpControlServer I :=
    gst_sync_tcp_control_server_init { addr := none, port := 0, info := none, server := none }
  let s1 := g_object_set_property true s0 PROP_ADDRESS (GValue.string address)
  let s2 := g_object_set_property true s1.1 PROP_PORT (GValue.int port)
  let s3 := g_object_set_property true s2.1 PROP_SYNC_INFO (GValue.boxed sync_info)
  let s4 := gst_sync_tcp_control_server_constructed env s3.1
  { self := s4.self, calls := s1.2 ++ s2.2 ++ s3.2 ++ s4.calls, fault := s4.fault }

/-! ## Operations on a constructed server -/

/-- An operation on a constructed server other than teardown: a property set
or get through GObject, or a run of the connection handler. -/
inductive Operation (I N : Type) where
  | set_property (property_id : Nat) (value : GValue I)
  | get_property (property_id : Nat) (value : GValue I)
  | run (env : RunEnv I N) (fuel : Nat)

/-- The server after an operation on the constructed object.  A property get
and `run_cb` assign no field of `self`. -/
def Operation.apply {I N : Type} (self : GstSyncTcpControlServer I) :
    Operation I N → GstSyncTcpControlServer I
  | Operation.set_property property_id value =>
    (g_object_set_property false self property_id value).1
  | Operation.get_property _ _ => self
  | Operation.run _ _ => self

/-! ## A set and a read of `self->info`, statement by statement

`set_property` with `PROP_SYNC_INFO` is two statements: the old block is
freed (lines 77-78), then `self->info` is assigned a copy of the new value
(line 80).  Between the two `self->info` still holds the address of the freed
block.  `run_cb` (line 147) and `get_property` (line 105) read the block
behind `self->info`.  No lock is taken anywhere in the file. -/

/-- The memory holding `GstSyncServerInfo` blocks and the field `self->info`,
as an address: the live blocks with their content, the next fresh address,
and the field. -/
structure InfoMemory (I : Type) where
  live : List (Nat × I)
  next : Nat
  info : Option Nat

/-- What reading the block behind `self->info` yields: `NULL`, a complete
value, or memory that was already released. -/
inductive InfoRead (I : Type) where
  | null
  | value (i : I)
  | released
  deriving DecidableEq, Repr

/-- Lines 77-78: `if (self->info) gst_sync_server_info_free (self->info);`.
The field keeps the address. -/
def set_sync_info_free {I : Type} (m : InfoMemory I) : InfoMemory I :=
  match m.info with
  | some p => { m with live := m.live.filter (fun b => b.1 ≠ p) }
  | none => m

/-- Line 80: `self->info = g_value_dup_boxed (value);`: a fresh block holding
a copy of the value, or `NULL` for a `NULL` value. -/
def set_sync_info_dup {I : Type} (m : InfoMemory I) (value : Option I) : InfoMemory I :=
  match value with
  | some v => { live := (m.next, v) :: m.live, next := m.next + 1, info := some m.next }
  | none => { m with info := none }

/-- The read of the block behind `self->info` done by
`json_boxed_serialize (..., self->info)` in `run_cb` and by
`g_value_set_boxed (value, self->info)` in `get_property`. -/
def read_sync_info {I : Type} (m : InfoMemory I) : InfoRead I :=
  match m.info with
  | none => InfoRead.null
  | some p =>
    match m.live.lookup p with
    | some v => InfoRead.value v
    | none => InfoRead.released

/-- A step of one of two threads: the owner's thread runs the two statements
of the set, the other thread reads. -/
inductive ThreadStep (I : Type) where
  | owner_free
  | owner_dup (value : Option I)
  | read

/-- Runs a schedule of steps; returns the memory and what each read saw. -/
def run_schedule {I : Type} : InfoMemory I → List (ThreadStep I) → InfoMemory I × List (InfoRead I)
  | m, [] => (m, [])
  | m, ThreadStep.owner_free :: rest => run_schedule (set_sync_info_free m) rest
  | m, ThreadStep.owner_dup value :: rest => run_schedule (set_sync_info_dup m value) rest
  | m, ThreadStep.read :: rest =>
    let r := run_schedule m rest
    (r.1, read_sync_info m :: r.2)

/-! ## Example inputs -/

/-- An example sync-parameters value with the two fields of the scenario
`clock = "0.0.0.0:5637"`, `latency = 0`. -/
structure ExampleInfo where
  clock : String
  latency : Nat
  deriving DecidableEq, Repr

/-- The example value. -/
def example_info : ExampleInfo := { clock := "0.0.0.0:5637", latency := 0 }

/-- A second example value. -/
def example_info2 : ExampleInfo := { clock := "0.0.0.0:5637", latency := 20 }

/-- An example text encoding of `ExampleInfo`. -/
def example_to_string (i : ExampleInfo) : String :=
  "\x7b\"clock\":\"" ++ i.clock ++ "\",\"latency\":" ++ toString i.latency ++ "\x7d"

/-- An example socket service: listening on 127.0.0.1:5000. -/
def example_service : GSocketService :=
  { max_threads := -1, run_connected := true,
    listening := [{ address := "127.0.0.1", port := 5000 }] }

/-- An example server: constructed on 127.0.0.1:5000 with the example value. -/
def example_server : GstSyncTcpControlServer ExampleInfo :=
  { addr := some "127.0.0.1", port := 5000, info := some example_info,
    server := some example_service }

/-- An example connection: json-glib yields `NULL` on `NULL` and a text
otherwise, the send writes the whole payload of the example value, the socket
is connected for two checks and then not, and every wait succeeds. -/
def example_env : RunEnv ExampleInfo ExampleInfo :=
  { json_boxed_serialize := fun i => i
    json_to_string := fun n => n.map example_to_string
    err_init := GErrorPtr.wild
    send_result := 36
    send_error := "Broken pipe"
    is_connected := fun k => decide (k < 2)
    condition_wait := fun _ => true }

/-- An example connection on which the send writes 10 bytes of the payload:
a short write, so `g_socket_send` does not touch `err`. -/
def short_write_env : RunEnv ExampleInfo ExampleInfo :=
  { example_env with send_result := 10 }

/-- The same short write, with `err` happening to start as `NULL`. -/
def short_write_null_env : RunEnv ExampleInfo ExampleInfo :=
  { example_env with send_result := 10, err_init := GErrorPtr.null }

/-- An example connection on which the send fails with "Broken pipe" while
`err` starts as `NULL`. -/
def failed_send_env : RunEnv ExampleInfo ExampleInfo :=
  { example_env with send_result := -1, err_init := GErrorPtr.null }

/-- An example connection whose socket always reports itself connected and on
which every wait fails. -/
def failing_wait_env : RunEnv ExampleInfo ExampleInfo :=
  { example_env with is_connected := fun _ => true, condition_wait := fun _ => false }

/-- An example connection whose first wait fails and whose socket reports
itself not connected at the next check. -/
def failing_wait_then_closed_env : RunEnv ExampleInfo ExampleInfo :=
  { example_env with is_connected := fun k => decide (k < 1), condition_wait := fun _ => false }

/-- The example server before `constructed` runs: the construct properties
are set, there is no socket service yet. -/
def unconstructed_server : GstSyncTcpControlServer ExampleInfo :=
  { addr := some "127.0.0.1", port := 5000, info := some example_info, server := none }

/-- The example server before `constructed` runs when the owner passed no
address: `addr` is `NULL`. -/
def unconstructed_no_address : GstSyncTcpControlServer ExampleInfo :=
  { addr := none, port := 5000, info := some example_info, server := none }

/-- An example in which port 5000 is in use: adding the address fails. -/
def port_in_use_env : ListenEnv :=
  { g_inet_socket_address_new_from_string := fun a p => some { address := a, port := p }
    g_socket_listener_add_address := fun _ =>
      some "Error binding to address 127.0.0.1:5000: Address already in use" }

/-- An example in which adding the address succeeds. -/
def port_free_env : ListenEnv :=
  { g_inet_socket_address_new_from_string := fun a p => some { address := a, port := p }
    g_socket_listener_add_address := fun _ => none }

/-- An example server constructed on 127.0.0.1:5000 without sync parameters:
its `info` is `NULL`. -/
def unset_server : GstSyncTcpControlServer ExampleInfo :=
  (g_object_new port_free_env (some "127.0.0.1") 5000 none).self

/-- An example memory: `self->info` points to the block at address 0, which
holds the example value. -/
def example_memory : InfoMemory ExampleInfo :=
  { live := [(0, example_info)], next := 1, info := some 0 }

/-! ## Facts about the wait loop -/

theorem wait_loop_check_or_wait {I N : Type} (env : RunEnv I N) :
    ∀ (fuel k : Nat) (c : Call I), c ∈ (wait_loop env fuel k).calls →
      c.is_check_or_wait = true := by
  intro fuel
  induction fuel with
  | zero => intro k c hc; simp [wait_loop] at hc
  | succ n ih =>
    intro k c hc
    unfold wait_loop at hc
    by_cases hk : env.is_connected k = true
    · simp only [hk, if_true, List.mem_cons] at hc
      rcases hc with h | h | h
      · subst h; rfl
      · subst h; rfl
      · exact ih (k + 1) c h
    · simp only [hk, Bool.false_eq_true, if_false, List.mem_singleton] at hc
      subst hc; rfl

theorem check_or_wait_on_socket {I : Type} (c : Call I)
    (h : c.is_check_or_wait = true) : c.on_socket = true := by
  cases c <;> simp_all [Call.is_check_or_wait, Call.on_socket]

theorem check_or_wait_not_send {I : Type} (c : Call I)
    (h : c.is_check_or_wait = true) : c.is_send = false := by
  cases c <;> simp_all [Call.is_check_or_wait, Call.is_send]

theorem wait_loop_socket_calls {I N : Type} (env : RunEnv I N) (fuel k : Nat) :
    socket_calls (wait_loop env fuel k).calls = (wait_loop env fuel k).calls := by
  unfold socket_calls
  rw [List.filter_eq_self]
  intro c hc
  exact check_or_wait_on_socket c (wait_loop_check_or_wait env fuel k c hc)

theorem wait_loop_no_send {I N : Type} (env : RunEnv I N) (fuel k : Nat) :
    (wait_loop env fuel k).calls.filter Call.is_send = [] := by
  rw [List.filter_eq_nil_iff]
  intro c hc
  simp [check_or_wait_not_send c (wait_loop_check_or_wait env fuel k c hc)]

/-- The socket calls of a run whose payload serialized to `out`: the send of
`out` with its full length, then a part of the wait loop's calls (all of them
unless the run faulted). -/
theorem run_cb_socket_calls {I N : Type} (env : RunEnv I N)
    (self : GstSyncTcpControlServer I) (fuel : Nat) (out : String)
    (h : env.json_to_string (env.json_boxed_serialize self.info) = some out) :
    socket_calls (run_cb env self fuel).calls =
        Call.g_socket_send out (strlen out) env.send_result ::
          (wait_loop env fuel 0).calls ∨
      socket_calls (run_cb env self fuel).calls =
        [Call.g_socket_send out (strlen out) env.send_result] := by
  unfold run_cb
  simp only [h]
  split
  · split
    · left
      simp only [socket_calls, List.filter_append]
      have hw := wait_loop_socket_calls env fuel 0
      simp only [socket_calls] at hw
      rw [hw]
      simp [Call.on_socket]
    · right
      simp [socket_calls, Call.on_socket]
  · left
    simp only [socket_calls, List.filter_append]
    have hw := wait_loop_socket_calls env fuel 0
    simp only [socket_calls] at hw
    rw [hw]
    simp [Call.on_socket]

/-- The sends of a run whose payload serialized to `out`: exactly one. -/
theorem run_cb_sends {I N : Type} (env : RunEnv I N)
    (self : GstSyncTcpControlServer I) (fuel : Nat) (out : String)
    (h : env.json_to_string (env.json_boxed_serialize self.info) = some out) :
    (run_cb env self fuel).calls.filter Call.is_send =
      [Call.g_socket_send out (strlen out) env.send_result] := by
  unfold run_cb
  simp only [h]
  split
  · split
    · simp only [List.filter_append, wait_loop_no_send]
      simp [Call.is_send]
    · simp [Call.is_send]
  · simp only [List.filter_append, wait_loop_no_send]
    simp [Call.is_send]

/-! ## The example server -/

/-- The example server is the one GObject constructs on 127.0.0.1:5000 with
the example value when the port is free; without sync parameters its `info`
is `NULL`. -/
theorem example_server_constructed :
    (g_object_new port_free_env (some "127.0.0.1") 5000 (some example_info)).self =
      example_server ∧
    (g_object_new port_free_env (some "127.0.0.1") 5000 (some example_info)).fault =
      false ∧
    unset_server =
      { addr := some "127.0.0.1", port := 5000, info := none,
        server := some example_service } := by
  refine ⟨by decide, by decide, by decide⟩

/-! ## The handler sends once -/

/-- Claim C1: when the payload serializes to `out`, then for every result of
the write and every behaviour of the socket, for as long as the run is
observed, the calls of `run_cb` on the socket are one `g_socket_send` of `out`
with its whole length, followed only by `g_socket_is_connected` and
`g_socket_condition_wait (G_IO_IN)`; there is exactly one send among all
calls, and no receive. -/
theorem C1_one_send_then_checks_and_waits {I N : Type} (env : RunEnv I N)
    (self : GstSyncTcpControlServer I) (fuel : Nat) (out : String)
    (h : env.json_to_string (env.json_boxed_serialize self.info) = some out) :
    ∃ rest : List (Call I),
      socket_calls (run_cb env self fuel).calls =
        Call.g_socket_send out (strlen out) env.send_result :: rest ∧
      (∀ c ∈ rest, c.is_check_or_wait = true) ∧
      (run_cb env self fuel).calls.filter Call.is_send =
        [Call.g_socket_send out (strlen out) env.send_result] ∧
      Call.g_socket_receive ∉ (run_cb env self fuel).calls := by
  have hs := run_cb_socket_calls env self fuel out h
  have key : ∃ rest : List (Call I),
      socket_calls (run_cb env self fuel).calls =
        Call.g_socket_send out (strlen out) env.send_result :: rest ∧
      (∀ c ∈ rest, c.is_check_or_wait = true) := by
    rcases hs with hs | hs
    · exact ⟨_, hs, wait_loop_check_or_wait env fuel 0⟩
    · exact ⟨[], hs, by simp⟩
  obtain ⟨rest, h1, h2⟩ := key
  refine ⟨rest, h1, h2, run_cb_sends env self fuel out h, ?_⟩
  intro hmem
  have hin : (Call.g_socket_receive : Call I) ∈ socket_calls (run_cb env self fuel).calls := by
    unfold socket_calls
    exact List.mem_filter.mpr ⟨hmem, rfl⟩
  rw [h1] at hin
  rcases List.mem_cons.mp hin with hh | hh
  · cases hh
  · have := h2 _ hh
    simp [Call.is_check_or_wait] at this

/-- Claim C1, an instance: the example connection on the example server. -/
theorem C1_one_send_then_checks_and_waits_witness :
    ∃ rest : List (Call ExampleInfo),
      socket_calls (run_cb example_env example_server 5).calls =
        Call.g_socket_send (example_to_string example_info)
          (strlen (example_to_string example_info)) example_env.send_result :: rest ∧
      (∀ c ∈ rest, c.is_check_or_wait = true) ∧
      (run_cb example_env example_server 5).calls.filter Call.is_send =
        [Call.g_socket_send (example_to_string example_info)
          (strlen (example_to_string example_info)) example_env.send_result] ∧
      Call.g_socket_receive ∉ (run_cb example_env example_server 5).calls :=
  C1_one_send_then_checks_and_waits example_env example_server 5
    (example_to_string example_info) rfl

/-! ## The snapshot is taken when the handler starts -/

/-- Claim C2: after `set_property` with `PROP_SYNC_INFO` and a value `v` that
serializes to `out`, a handler that starts sends exactly `out` (one send, with
its whole length); the `set_property` itself makes no call on any socket; and
a handler started on the state before the set, whose payload was `old`, makes
exactly one send, of `old`, however long it is observed: it reads
`self->info` only when it starts. -/
theorem C2_snapshot_fixed_at_connect {I N : Type} (env env_old : RunEnv I N)
    (self : GstSyncTcpControlServer I) (v : I) (out old : String)
    (fuel fuel_old : Nat)
    (h : env.json_to_string (env.json_boxed_serialize (some v)) = some out)
    (h_old : env_old.json_to_string (env_old.json_boxed_serialize self.info) = some old) :
    (run_cb env
        (gst_sync_tcp_control_server_set_property self PROP_SYNC_INFO
          (GValue.boxed (some v))).1 fuel).calls.filter Call.is_send =
      [Call.g_socket_send out (strlen out) env.send_result] ∧
    (∀ c ∈ (gst_sync_tcp_control_server_set_property self PROP_SYNC_INFO
        (GValue.boxed (some v))).2, c.on_socket = false) ∧
    (run_cb env_old self fuel_old).calls.filter Call.is_send =
      [Call.g_socket_send old (strlen old) env_old.send_result] := by
  refine ⟨?_, ?_, run_cb_sends env_old self fuel_old old h_old⟩
  · apply run_cb_sends
    simpa [gst_sync_tcp_control_server_set_property, PROP_SYNC_INFO, PROP_ADDRESS,
      PROP_PORT, g_value_dup_boxed] using h
  · intro c hc
    simp only [gst_sync_tcp_control_server_set_property, PROP_SYNC_INFO, PROP_ADDRESS,
      PROP_PORT] at hc
    simp at hc
    cases hi : self.info with
    | none => simp [hi] at hc
    | some i =>
      simp only [hi, List.mem_singleton] at hc
      subst hc; rfl

/-- Claim C2, an instance: the example server is set to the second example
value; a new connection sends its encoding, an old one sent the first. -/
theorem C2_snapshot_fixed_at_connect_witness :
    (run_cb example_env
        (gst_sync_tcp_control_server_set_property example_server PROP_SYNC_INFO
          (GValue.boxed (some example_info2))).1 7).calls.filter Call.is_send =
      [Call.g_socket_send (example_to_string example_info2)
        (strlen (example_to_string example_info2)) example_env.send_result] ∧
    (∀ c ∈ (gst_sync_tcp_control_server_set_property example_server PROP_SYNC_INFO
        (GValue.boxed (some example_info2))).2, c.on_socket = false) ∧
    (run_cb example_env example_server 7).calls.filter Call.is_send =
      [Call.g_socket_send (example_to_string example_info)
        (strlen (example_to_string example_info)) example_env.send_result] :=
  C2_snapshot_fixed_at_connect example_env example_env example_server example_info2
    (example_to_string example_info2) (example_to_string example_info) 7 7 rfl rfl

/-! ## Set and get of the sync parameters -/

/-- Claim C8: for every server state, `dispose` stops and unrefs the socket
service the server holds, and leaves `server`, `addr` and `info` cleared;
a second `dispose` on the result returns the same state and makes no call
that stops or releases anything (only the parent's `dispose` is chained). -/
theorem C8_dispose_releases_listener {I : Type} (self : GstSyncTcpControlServer I) :
    (∀ svc : GSocketService, self.server = some svc →
      [Call.g_socket_service_stop svc, Call.g_object_unref svc] <+:
        (gst_sync_tcp_control_server_dispose self).2) ∧
    (gst_sync_tcp_control_server_dispose self).1.server = none ∧
    (gst_sync_tcp_control_server_dispose self).1.addr = none ∧
    (gst_sync_tcp_control_server_dispose self).1.info = none ∧
    (gst_sync_tcp_control_server_dispose (gst_sync_tcp_control_server_dispose self).1).1 =
      (gst_sync_tcp_control_server_dispose self).1 ∧
    (∀ c ∈ (gst_sync_tcp_control_server_dispose
        (gst_sync_tcp_control_server_dispose self).1).2, c.is_stop_or_release = false) := by
  refine ⟨?_, rfl, rfl, rfl, rfl, ?_⟩
  · intro svc hsvc
    simp only [gst_sync_tcp_control_server_dispose, hsvc, List.append_assoc]
    exact List.prefix_append _ _
  · intro c hc
    simp [gst_sync_tcp_control_server_dispose, g_free] at hc
    subst hc; rfl

/-- Claim C8, an instance: disposing the example server stops and unrefs its
service; a second dispose changes nothing and releases nothing. -/
theorem C8_dispose_releases_listener_witness :
    [Call.g_socket_service_stop example_service, Call.g_object_unref example_service] <+:
        (gst_sync_tcp_control_server_dispose example_server).2 ∧
    (gst_sync_tcp_control_server_dispose example_server).1.server = none ∧
    (gst_sync_tcp_control_server_dispose
        (gst_sync_tcp_control_server_dispose example_server).1).1 =
      (gst_sync_tcp_control_server_dispose example_server).1 ∧
    (∀ c ∈ (gst_sync_tcp_control_server_dispose
        (gst_sync_tcp_control_server_dispose example_server).1).2,
      c.is_stop_or_release = false) :=
  ⟨(C8_dispose_releases_listener example_server).1 example_service rfl,
    (C8_dispose_releases_listener example_server).2.1,
    (C8_dispose_releases_listener example_server).2.2.2.2.1,
    (C8_dispose_releases_listener example_server).2.2.2.2.2⟩

/-! ## The result of the send -/

/-- For a result `r` that `g_socket_send` can return on `len` bytes (a count
up to `len`, or -1) the test `g_socket_send (...) != len`, done on `gsize`,
holds exactly when `r < len`. -/
theorem send_test_iff_lt (r : Int) (len : Nat) (hlo : -1 ≤ r) (hhi : r ≤ len)
    (hlen : len < 2 ^ 63) : gssize_to_gsize r ≠ len ↔ r < len := by
  unfold gssize_to_gsize
  by_cases hr : 0 ≤ r
  · have hmod : r % (2 : Int) ^ 64 = r := by
      apply Int.emod_eq_of_lt hr
      have : (len : Int) < 2 ^ 63 := by exact_mod_cast hlen
      omega
    rw [hmod]
    omega
  · have hr1 : r = -1 := by omega
    subst hr1
    have : ((-1 : Int) % (2 : Int) ^ 64).toNat = 2 ^ 64 - 1 := by decide
    rw [this]
    constructor
    · intro _; omega
    · intro _; omega

/-- A full write of a payload that fits the address space: no warning, the
run is the five calls up to the send followed by the wait loop. -/
theorem run_cb_full_write {I N : Type} (env : RunEnv I N)
    (self : GstSyncTcpControlServer I) (fuel : Nat) (out : String)
    (h : env.json_to_string (env.json_boxed_serialize self.info) = some out)
    (hlen : strlen out < 2 ^ 63) (hr : env.send_result = strlen out) :
    run_cb env self fuel =
      { calls := [Call.json_boxed_serialize self.info, Call.json_to_string,
          Call.json_node_unref, Call.g_socket_connection_get_socket,
          Call.g_socket_send out (strlen out) env.send_result] ++
            (wait_loop env fuel 0).calls,
        outcome := (wait_loop env fuel 0).outcome } := by
  have hg : ¬ (gssize_to_gsize env.send_result ≠ strlen out) := by
    rw [send_test_iff_lt env.send_result (strlen out) (by omega) (by omega) hlen]
    omega
  unfold run_cb
  simp only [h]
  rw [if_neg hg]

/-- A failed send (-1) while `err` started as `NULL`: the error set by the
send is reported in a warning and freed, and the run goes on to the wait
loop. -/
theorem run_cb_failed_send {I N : Type} (env : RunEnv I N)
    (self : GstSyncTcpControlServer I) (fuel : Nat) (out : String)
    (h : env.json_to_string (env.json_boxed_serialize self.info) = some out)
    (hlen : strlen out < 2 ^ 63) (hr : env.send_result = -1)
    (herr : env.err_init = GErrorPtr.null) :
    run_cb env self fuel =
      { calls := [Call.json_boxed_serialize self.info, Call.json_to_string,
          Call.json_node_unref, Call.g_socket_connection_get_socket,
          Call.g_socket_send out (strlen out) env.send_result] ++
            [Call.g_warning ("Could not write out " ++ toString (strlen out) ++
                " bytes: " ++ env.send_error), Call.g_error_free] ++
            (wait_loop env fuel 0).calls,
        outcome := (wait_loop env fuel 0).outcome } := by
  have hg : gssize_to_gsize env.send_result ≠ strlen out := by
    rw [send_test_iff_lt env.send_result (strlen out) (by omega) (by omega) hlen]
    omega
  unfold run_cb
  simp only [h]
  rw [if_pos hg]
  simp [hr, herr, g_set_error]

/-- A short write (`0 ≤ r < len`) while `err` does not point to an error:
the test holds, `err->message` is read through an invalid pointer, and the
run ends there, with no warning and without entering the wait loop. -/
theorem run_cb_short_write {I N : Type} (env : RunEnv I N)
    (self : GstSyncTcpControlServer I) (fuel : Nat) (out : String)
    (h : env.json_to_string (env.json_boxed_serialize self.info) = some out)
    (hlen : strlen out < 2 ^ 63) (hlo : 0 ≤ env.send_result)
    (hhi : env.send_result < strlen out)
    (herr : ∀ m, env.err_init ≠ GErrorPtr.error m) :
    run_cb env self fuel =
      { calls := [Call.json_boxed_serialize self.info, Call.json_to_string,
          Call.json_node_unref, Call.g_socket_connection_get_socket,
          Call.g_socket_send out (strlen out) env.send_result],
        outcome := Outcome.fault } := by
  have hg : gssize_to_gsize env.send_result ≠ strlen out := by
    rw [send_test_iff_lt env.send_result (strlen out) (by omega) (by omega) hlen]
    omega
  have hn : ¬ env.send_result < 0 := by omega
  unfold run_cb
  simp only [h]
  rw [if_pos hg, if_neg hn]
  cases he : env.err_init with
  | null => rfl
  | wild => rfl
  | error m => exact absurd he (herr m)

/-- Claim C3, at a short write: the example payload has 36 bytes and the send
writes 10 of them.  The test `!= len` holds, `err` was never assigned (wild,
or `NULL`), and the run ends with a fault at `err->message`: no warning is
issued and no check or wait on the socket follows. -/
theorem C3_short_write_faults :
    strlen (example_to_string example_info) = 36 ∧
    run_cb short_write_env example_server 5 =
      { calls := [Call.json_boxed_serialize (some example_info), Call.json_to_string,
          Call.json_node_unref, Call.g_socket_connection_get_socket,
          Call.g_socket_send (example_to_string example_info) 36 10],
        outcome := Outcome.fault } ∧
    run_cb short_write_null_env example_server 5 =
      { calls := [Call.json_boxed_serialize (some example_info), Call.json_to_string,
          Call.json_node_unref, Call.g_socket_connection_get_socket,
          Call.g_socket_send (example_to_string example_info) 36 10],
        outcome := Outcome.fault } ∧
    (run_cb short_write_env example_server 5).calls.filter Call.is_warning = [] ∧
    (run_cb short_write_env example_server 5).calls.filter Call.is_check_or_wait = [] := by
  refine ⟨by decide, by decide, by decide, by decide, by decide⟩

/-- By contrast, a failed send on the example connection, with `err` starting
as `NULL`, is reported and followed by the wait loop. -/
theorem failed_send_reported :
    run_cb failed_send_env example_server 5 =
      { calls := [Call.json_boxed_serialize (some example_info), Call.json_to_string,
          Call.json_node_unref, Call.g_socket_connection_get_socket,
          Call.g_socket_send (example_to_string example_info) 36 (-1),
          Call.g_warning "Could not write out 36 bytes: Broken pipe",
          Call.g_error_free,
          Call.g_socket_is_connected true,
          Call.g_socket_condition_wait GIOCondition.G_IO_IN true,
          Call.g_socket_is_connected true,
          Call.g_socket_condition_wait GIOCondition.G_IO_IN true,
          Call.g_socket_is_connected false],
        outcome := Outcome.returned true } := by
  decide

/-! ## A payload that cannot be serialized -/

/-- With no payload (`json_to_string` yields `NULL`) the run ends at
`strlen (out)`: nothing is sent and the wait loop is not entered. -/
theorem run_cb_no_payload {I N : Type} (env : RunEnv I N)
    (self : GstSyncTcpControlServer I) (fuel : Nat)
    (h : env.json_to_string (env.json_boxed_serialize self.info) = none) :
    run_cb env self fuel =
      { calls := [Call.json_boxed_serialize self.info, Call.json_to_string],
        outcome := Outcome.fault } := by
  unfold run_cb
  simp only [h]

/-- Claim C5, at a server whose `info` is `NULL`: json-glib yields no text,
`strlen` is applied to `NULL`, and the run ends with a fault after the two
json-glib calls: no send, and no check or wait on the socket either. -/
theorem C5_unserializable_faults :
    run_cb example_env unset_server 5 =
      { calls := [Call.json_boxed_serialize none, Call.json_to_string],
        outcome := Outcome.fault } := by
  decide

/-! ## A failing wait -/

theorem wait_loop_returns {I N : Type} (env : RunEnv I N) :
    ∀ (n fuel k : Nat), (∀ j, j < n → env.is_connected (k + j) = true) →
      env.is_connected (k + n) = false → n < fuel →
      (wait_loop env fuel k).outcome = Outcome.returned true ∧
        (wait_loop env fuel k).calls.length = 2 * n + 1 := by
  intro n
  induction n with
  | zero =>
    intro fuel k _ hd hf
    obtain ⟨f, rfl⟩ : ∃ f, fuel = f + 1 := ⟨fuel - 1, by omega⟩
    have hd0 : env.is_connected k = false := by simpa using hd
    unfold wait_loop
    simp [hd0]
  | succ m ih =>
    intro fuel k hc hd hf
    obtain ⟨f, rfl⟩ : ∃ f, fuel = f + 1 := ⟨fuel - 1, by omega⟩
    have hk : env.is_connected k = true := by simpa using hc 0 (by omega)
    have hrec := ih f (k + 1)
      (fun j hj => by have := hc (j + 1) (by omega); rwa [show k + 1 + j = k + (j + 1) by omega])
      (by rwa [show k + 1 + m = k + (m + 1) by omega]) (by omega)
    unfold wait_loop
    simp only [hk, if_true]
    refine ⟨hrec.1, ?_⟩
    simp only [List.length_cons, hrec.2]
    omega

theorem wait_loop_waiting {I N : Type} (env : RunEnv I N) :
    ∀ (fuel k : Nat), (∀ j, j < fuel → env.is_connected (k + j) = true) →
      (wait_loop env fuel k).outcome = Outcome.waiting ∧
        (wait_loop env fuel k).calls.length = 2 * fuel := by
  intro fuel
  induction fuel with
  | zero => intro k _; simp [wait_loop]
  | succ f ih =>
    intro k hc
    have hk : env.is_connected k = true := by simpa using hc 0 (by omega)
    have hrec := ih (k + 1)
      (fun j hj => by have := hc (j + 1) (by omega); rwa [show k + 1 + j = k + (j + 1) by omega])
    unfold wait_loop
    simp only [hk, if_true]
    refine ⟨hrec.1, ?_⟩
    simp only [List.length_cons, hrec.2]
    omega

/-- Claim C10 as stated fails: on a socket that keeps reporting itself
connected, the first wait fails and the handler does not leave the loop; it
checks and waits twice more and is still in the loop. -/
theorem C10_failed_wait_does_not_leave_loop :
    failing_wait_env.condition_wait 0 = false ∧
    wait_loop (I := ExampleInfo) failing_wait_env 3 0 =
      { calls := [Call.g_socket_is_connected true,
          Call.g_socket_condition_wait GIOCondition.G_IO_IN false,
          Call.g_socket_is_connected true,
          Call.g_socket_condition_wait GIOCondition.G_IO_IN false,
          Call.g_socket_is_connected true,
          Call.g_socket_condition_wait GIOCondition.G_IO_IN false],
        outcome := Outcome.waiting } ∧
    (run_cb failing_wait_env example_server 3).outcome = Outcome.waiting := by
  refine ⟨rfl, by decide, by decide⟩

/-- Claim C10, amended: the result of `g_socket_condition_wait` is ignored.
The handler leaves the loop and returns `TRUE` exactly at the first check at
which the socket reports itself not connected, after one wait per earlier
check, whatever those waits returned; while the socket reports itself
connected the handler stays in the loop, also after failed waits. -/
theorem C10_loop_ends_only_on_disconnect {I N : Type} (env : RunEnv I N)
    (n fuel : Nat) (hconn : ∀ j, j < n → env.is_connected j = true) :
    (env.is_connected n = false → n < fuel →
      (wait_loop env fuel 0).outcome = Outcome.returned true ∧
        (wait_loop env fuel 0).calls.length = 2 * n + 1) ∧
    (wait_loop env n 0).outcome = Outcome.waiting ∧
    (wait_loop env n 0).calls.length = 2 * n := by
  refine ⟨?_, ?_⟩
  · intro hd hf
    exact wait_loop_returns env n fuel 0 (fun j hj => by simpa using hconn j hj)
      (by simpa using hd) hf
  · exact wait_loop_waiting env n 0 (fun j hj => by simpa using hconn j hj)

/-- Claim C10 amended, an instance: the first wait fails and the next check
reports the socket not connected, so the handler returns after that one wait;
observed for one check only, it is in the loop. -/
theorem C10_loop_ends_only_on_disconnect_witness :
    failing_wait_then_closed_env.condition_wait 0 = false ∧
    ((wait_loop (I := ExampleInfo) failing_wait_then_closed_env 4 0).outcome =
        Outcome.returned true ∧
      (wait_loop (I := ExampleInfo) failing_wait_then_closed_env 4 0).calls.length =
        2 * 1 + 1) ∧
    (wait_loop (I := ExampleInfo) failing_wait_then_closed_env 1 0).outcome =
      Outcome.waiting :=
  ⟨rfl,
    (C10_loop_ends_only_on_disconnect failing_wait_then_closed_env 1 4
      (fun j hj => by
        have hj0 : j = 0 := by omega
        subst hj0; rfl)).1 rfl (by decide),
    (C10_loop_ends_only_on_disconnect failing_wait_then_closed_env 1 4
      (fun j hj => by
        have hj0 : j = 0 := by omega
        subst hj0; rfl)).2.1⟩

/-! ## A bind failure -/

/-- With no address (`self->addr == NULL`) `constructed` does not reach
`g_socket_listener_add_address`: the run ends inside
`g_inet_socket_address_new_from_string`, with no warning, the service already
stored in `self->server`. -/
theorem constructed_missing_address_faults {I : Type} (env : ListenEnv)
    (self : GstSyncTcpControlServer I) (h : self.addr = none) :
    (gst_sync_tcp_control_server_constructed env self).fault = true ∧
    (gst_sync_tcp_control_server_constructed env self).calls.filter Call.is_warning = [] ∧
    (gst_sync_tcp_control_server_constructed env self).self.server =
      some { max_threads := -1, run_connected := true, listening := [] } := by
  unfold gst_sync_tcp_control_server_constructed
  simp only [h]
  simp [Call.is_warning]

/-- The missing address on the example: a fault after four calls. -/
theorem constructed_missing_address_example :
    gst_sync_tcp_control_server_constructed port_free_env unconstructed_no_address =
      { self := { unconstructed_no_address with
          server := some { max_threads := -1, run_connected := true, listening := [] } },
        calls := [Call.parent_constructed, Call.g_threaded_socket_service_new (-1),
          Call.g_signal_connect_run,
          Call.g_inet_socket_address_new_from_string none 5000],
        fault := true } := by
  decide

/-- When the address is present and adding it succeeds, `constructed` returns
with the service listening on the parsed address. -/
theorem constructed_success {I : Type} (env : ListenEnv)
    (self : GstSyncTcpControlServer I) (address : String)
    (ha : self.addr = some address)
    (h : env.g_socket_listener_add_address
      (env.g_inet_socket_address_new_from_string address (gint_to_guint self.port)) =
        none) :
    (gst_sync_tcp_control_server_constructed env self).fault = false ∧
    (gst_sync_tcp_control_server_constructed env self).self =
      { self with
        server := some { max_threads := -1, run_connected := true,
                         listening := (env.g_inet_socket_address_new_from_string address
                           (gint_to_guint self.port)).toList } } ∧
    (gst_sync_tcp_control_server_constructed env self).calls.filter Call.is_warning = [] := by
  unfold gst_sync_tcp_control_server_constructed
  simp only [ha, h]
  simp [Call.is_warning]

/-- Claim C4 as stated fails: with port 5000 in use, `constructed` returns
(no fault) and leaves the server holding a socket service (not `NULL`), and
the owner reads the same three properties as after a successful construction;
`constructed` returns nothing. -/
theorem C4_bind_failure_keeps_handle :
    (gst_sync_tcp_control_server_constructed port_in_use_env unconstructed_server).fault =
      false ∧
    (gst_sync_tcp_control_server_constructed port_in_use_env
        unconstructed_server).self.server =
      some { max_threads := -1, run_connected := true, listening := [] } ∧
    (gst_sync_tcp_control_server_constructed port_in_use_env
        unconstructed_server).self.server ≠ none ∧
    g_object_get_property
        (gst_sync_tcp_control_server_constructed port_in_use_env unconstructed_server).self
        PROP_ADDRESS (GValue.string none) =
      g_object_get_property
        (gst_sync_tcp_control_server_constructed port_free_env unconstructed_server).self
        PROP_ADDRESS (GValue.string none) ∧
    g_object_get_property
        (gst_sync_tcp_control_server_constructed port_in_use_env unconstructed_server).self
        PROP_PORT (GValue.int 0) =
      g_object_get_property
        (gst_sync_tcp_control_server_constructed port_free_env unconstructed_server).self
        PROP_PORT (GValue.int 0) ∧
    g_object_get_property
        (gst_sync_tcp_control_server_constructed port_in_use_env unconstructed_server).self
        PROP_SYNC_INFO (GValue.boxed none) =
      g_object_get_property
        (gst_sync_tcp_control_server_constructed port_free_env unconstructed_server).self
        PROP_SYNC_INFO (GValue.boxed none) := by
  refine ⟨by decide, by decide, by decide, by decide, by decide, by decide⟩

/-- Claim C4, amended: for a server whose address is present (not `NULL`),
when adding the listening address fails with message `m`, `constructed` logs
the warning "Could not set up socket listener: m", frees the error and
returns (no fault); the server keeps the socket service it created, which
listens on no address; `addr`, `port` and `info` are unchanged, so every
property reads as before. -/
theorem C4_bind_failure_logged {I : Type} (env : ListenEnv)
    (self : GstSyncTcpControlServer I) (address message : String)
    (ha : self.addr = some address)
    (h : env.g_socket_listener_add_address
      (env.g_inet_socket_address_new_from_string address (gint_to_guint self.port)) =
        some message) :
    (gst_sync_tcp_control_server_constructed env self).fault = false ∧
    (gst_sync_tcp_control_server_constructed env self).self =
      { self with
        server := some { max_threads := -1, run_connected := true, listening := [] } } ∧
    [Call.g_warning ("Could not set up socket listener: " ++ message), Call.g_error_free] <:+
      (gst_sync_tcp_control_server_constructed env self).calls ∧
    (∀ (property_id : Nat) (value : GValue I),
      gst_sync_tcp_control_server_get_property
          (gst_sync_tcp_control_server_constructed env self).self property_id value =
        gst_sync_tcp_control_server_get_property self property_id value) := by
  have hs : (gst_sync_tcp_control_server_constructed env self).self =
      { self with
        server := some { max_threads := -1, run_connected := true, listening := [] } } := by
    unfold gst_sync_tcp_control_server_constructed
    simp only [ha, h]
  refine ⟨?_, hs, ?_, ?_⟩
  · unfold gst_sync_tcp_control_server_constructed
    simp only [ha, h]
  · unfold gst_sync_tcp_control_server_constructed
    simp only [ha, h]
    rw [show ∀ (a b c : Call I) (l : List (Call I)), l ++ [a, b, c] = (l ++ [a]) ++ [b, c] by simp]
    exact List.suffix_append _ _
  · intro property_id value
    rw [hs]
    rfl

/-- Claim C4 amended, an instance: address 127.0.0.1 present, port 5000 in
use. -/
theorem C4_bind_failure_logged_witness :
    (gst_sync_tcp_control_server_constructed port_in_use_env unconstructed_server).fault =
      false ∧
    (gst_sync_tcp_control_server_constructed port_in_use_env unconstructed_server).self =
      { unconstructed_server with
        server := some { max_threads := -1, run_connected := true, listening := [] } } ∧
    [Call.g_warning ("Could not set up socket listener: " ++
        "Error binding to address 127.0.0.1:5000: Address already in use"),
      Call.g_error_free] <:+
      (gst_sync_tcp_control_server_constructed port_in_use_env unconstructed_server).calls ∧
    (∀ (property_id : Nat) (value : GValue ExampleInfo),
      gst_sync_tcp_control_server_get_property
          (gst_sync_tcp_control_server_constructed port_in_use_env unconstructed_server).self
          property_id value =
        gst_sync_tcp_control_server_get_property unconstructed_server property_id value) :=
  C4_bind_failure_logged port_in_use_env unconstructed_server "127.0.0.1"
    "Error binding to address 127.0.0.1:5000: Address already in use" rfl rfl

/-! ## Address and port after construction -/

/-- The class's `set_property` itself assigns `addr` when called with
`PROP_ADDRESS`: what keeps the address fixed is the construct-only flag. -/
theorem set_property_address_assigns {I : Type} (self : GstSyncTcpControlServer I)
    (a : Option String) :
    (gst_sync_tcp_control_server_set_property self PROP_ADDRESS (GValue.string a)).1.addr =
      a := by
  simp [gst_sync_tcp_control_server_set_property, g_value_dup_string]

theorem class_init_lookup (property_id : Nat) :
    (property_id = PROP_ADDRESS ∧
      gst_sync_tcp_control_server_class_init.lookup property_id = some address_pspec) ∨
    (property_id = PROP_PORT ∧
      gst_sync_tcp_control_server_class_init.lookup property_id = some port_pspec) ∨
    (property_id = PROP_SYNC_INFO ∧
      gst_sync_tcp_control_server_class_init.lookup property_id = some sync_info_pspec) ∨
    gst_sync_tcp_control_server_class_init.lookup property_id = none := by
  by_cases h1 : property_id = PROP_ADDRESS
  · left; subst h1; exact ⟨rfl, rfl⟩
  · by_cases h2 : property_id = PROP_PORT
    · right; left; subst h2; exact ⟨rfl, rfl⟩
    · by_cases h3 : property_id = PROP_SYNC_INFO
      · right; right; left; subst h3; exact ⟨rfl, rfl⟩
      · right; right; right
        have e1 : (property_id == PROP_ADDRESS) = false := by simpa using h1
        have e2 : (property_id == PROP_PORT) = false := by simpa using h2
        have e3 : (property_id == PROP_SYNC_INFO) = false := by simpa using h3
        simp only [gst_sync_tcp_control_server_class_init, List.lookup, e1, e2, e3]

/-- A property set on a constructed object leaves `addr`, `port` and
`server` as they are, whatever the property and the value. -/
theorem g_object_set_property_keeps_addr_port {I : Type}
    (self : GstSyncTcpControlServer I) (property_id : Nat) (value : GValue I) :
    (g_object_set_property false self property_id value).1.addr = self.addr ∧
    (g_object_set_property false self property_id value).1.port = self.port ∧
    (g_object_set_property false self property_id value).1.server = self.server := by
  rcases class_init_lookup property_id with ⟨_, hl⟩ | ⟨_, hl⟩ | ⟨h, hl⟩ | hl
  · unfold g_object_set_property
    rw [hl]
    simp [address_pspec, G_PARAM_READWRITE]
  · unfold g_object_set_property
    rw [hl]
    simp [port_pspec, G_PARAM_READWRITE]
  · unfold g_object_set_property
    rw [hl]
    by_cases hv : GParamKind.accepts sync_info_pspec.kind value = false
    · simp [sync_info_pspec, G_PARAM_READWRITE] at hv ⊢
      simp [hv]
    · simp [sync_info_pspec, G_PARAM_READWRITE] at hv ⊢
      simp [hv, h, gst_sync_tcp_control_server_set_property,
        PROP_SYNC_INFO, PROP_ADDRESS, PROP_PORT]
  · unfold g_object_set_property
    rw [hl]
    exact ⟨rfl, rfl, rfl⟩

/-- Claim C7: on a constructed server, any sequence of property sets (of any
property, with any value, through GObject, which refuses a set of the
construct-only properties "address" and "port"), property gets and handler
runs leaves the stored address and port, and the socket service, as they
were; and the class's `set_property` with `PROP_SYNC_INFO` leaves `addr`,
`port` and `server` unchanged. -/
theorem C7_address_port_immutable {I N : Type} (self : GstSyncTcpControlServer I)
    (ops : List (Operation I N)) (value : GValue I) :
    (ops.foldl Operation.apply self).addr = self.addr ∧
    (ops.foldl Operation.apply self).port = self.port ∧
    (ops.foldl Operation.apply self).server = self.server ∧
    (gst_sync_tcp_control_server_set_property self PROP_SYNC_INFO value).1.addr =
      self.addr ∧
    (gst_sync_tcp_control_server_set_property self PROP_SYNC_INFO value).1.port =
      self.port ∧
    (gst_sync_tcp_control_server_set_property self PROP_SYNC_INFO value).1.server =
      self.server := by
  have hstep : ∀ (s : GstSyncTcpControlServer I) (op : Operation I N),
      (Operation.apply s op).addr = s.addr ∧ (Operation.apply s op).port = s.port ∧
        (Operation.apply s op).server = s.server := by
    intro s op
    cases op with
    | set_property property_id v => exact g_object_set_property_keeps_addr_port s property_id v
    | get_property _ _ => exact ⟨rfl, rfl, rfl⟩
    | run _ _ => exact ⟨rfl, rfl, rfl⟩
  have hall : ∀ (l : List (Operation I N)) (s : GstSyncTcpControlServer I),
      (l.foldl Operation.apply s).addr = s.addr ∧
        (l.foldl Operation.apply s).port = s.port ∧
        (l.foldl Operation.apply s).server = s.server := by
    intro l
    induction l with
    | nil => intro s; exact ⟨rfl, rfl, rfl⟩
    | cons op rest ih =>
      intro s
      simp only [List.foldl_cons]
      exact ⟨(ih _).1.trans (hstep s op).1, (ih _).2.1.trans (hstep s op).2.1,
        (ih _).2.2.trans (hstep s op).2.2⟩
  refine ⟨(hall ops self).1, (hall ops self).2.1, (hall ops self).2.2, ?_, ?_, ?_⟩ <;>
    simp [gst_sync_tcp_control_server_set_property, PROP_SYNC_INFO, PROP_ADDRESS, PROP_PORT]

/-! ## A read during a set -/

/-- When the two statements of the set run without a read in between, a read
afterwards sees the value that was set. -/
theorem read_after_set {I : Type} (m : InfoMemory I) (v : I) :
    read_sync_info (set_sync_info_dup (set_sync_info_free m) (some v)) =
      InfoRead.value v := by
  simp [read_sync_info, set_sync_info_dup, List.lookup]

/-- Claim C9, at one interleaving: the owner's thread frees the old block
(lines 77-78), the other thread reads the block behind `self->info` (line 147
or 105), then the owner's thread assigns the new block (line 80).  The read
sees released memory; the same three steps with the read last see the new
value. -/
theorem C9_read_between_free_and_assign :
    (run_schedule example_memory
        [ThreadStep.owner_free, ThreadStep.read,
          ThreadStep.owner_dup (some example_info2)]).2 = [InfoRead.released] ∧
    (run_schedule example_memory
        [ThreadStep.owner_free, ThreadStep.owner_dup (some example_info2),
          ThreadStep.read]).2 = [InfoRead.value example_info2] := by
  refine ⟨by decide, by decide⟩

end GstSync
